import Mathlib

set_option autoImplicit false

/-
Shallow embedding of the flash-cards core (pack loading and the quiz state
machine) from `flash_cards_main.py` and `streamlit_app.py`.  Values produced
by the JSON decoder are dynamically typed, so table entries are modelled as
arbitrary JSON values; the code paths that assume a particular shape
(`.items()`, `.keys()`, indexing, `.lower()`) are modelled as fallible
operations returning an error when the shape is wrong, mirroring the Python
exceptions raised at those points.
-/

namespace FlashCards

/-- JSON values as produced by the host JSON decoder (`json.load`).  Numbers
are modelled as integers; none of the verified properties depend on numeric
precision. -/
inductive Json where
  | null : Json
  | bool (b : Bool) : Json
  | num (n : Int) : Json
  | str (s : String) : Json
  | arr (elems : List Json) : Json
  | obj (members : List (String × Json)) : Json

/-- Python `str.lower()`: lower-case every character. -/
def pyLower (s : String) : String := String.mk (s.data.map Char.toLower)

/-- Character-list form of Python `str.strip()`: drop leading and trailing
whitespace. -/
def pyStripList (l : List Char) : List Char :=
  ((l.dropWhile Char.isWhitespace).reverse.dropWhile Char.isWhitespace).reverse

/-- Python `str.strip()`: drop leading and trailing whitespace. -/
def pyStrip (s : String) : String := String.mk (pyStripList s.data)

/-- Python dict read `d[k]` on a decoded JSON object, first matching key.
Decoded objects have unique keys, so first-match equals last-match there. -/
def dictGet : List (String × Json) → String → Option Json
  | [], _ => none
  | (a, v) :: rest, k => if k = a then some v else dictGet rest k

/-- The binding a sequence of Python dict assignments leaves for a key: the
last occurrence of the key in the list wins. -/
def lookupLast (kvs : List (String × Json)) (k : String) : Option Json :=
  dictGet kvs.reverse k

/-- The in-memory category table (`categories` in `flash_cards_main.py`,
`st.session_state.categories` in `streamlit_app.py`), as a partial map from
category name to the decoded JSON value stored for it. -/
abbrev Table := String → Option Json

def emptyTable : Table := fun _ => none

/-- Python dict assignment `t[k] = v`. -/
def dictSet (t : Table) (k : String) (v : Json) : Table :=
  fun q => if q = k then some v else t q

/-- The Python exceptions the embedded code paths can raise. -/
inductive PyError where
  | keyError : PyError
  | indexError : PyError
  | attributeError : PyError
  | jsonDecodeError : PyError
deriving DecidableEq

/-- The loop `for category_name, questions in imported_categories.items():
categories[category_name] = questions` (flash_cards_main.py lines 66-67,
streamlit_app.py lines 64-65): each top-level member overwrites the table
entry of its name. -/
def mergePack (t : Table) (kvs : List (String × Json)) : Table :=
  kvs.foldl (fun acc kv => dictSet acc kv.1 kv.2) t

/-- Loading one source (the try-block body of `auto_load_packs` /
`load_packs`).  The argument is the outcome of `json.load` on the source:
`none` when decoding raised, otherwise the decoded value.  Returns the new
table, the exception caught for this source (if any), and the number of
categories this source contributed to the loaded count. -/
def load_source (t : Table) (decoded : Option Json) : Table × Option PyError × Nat :=
  match decoded with
  | none => (t, some PyError.jsonDecodeError, 0)
  | some (Json.obj kvs) => (mergePack t kvs, none, kvs.length)
  | some _ => (t, some PyError.attributeError, 0)

/-- `auto_load_packs` / `load_packs` over the list of discovered `.json`
sources: each source is processed independently, a per-source exception is
reported and swallowed, and the loaded count accumulates. -/
def auto_load_packs (t : Table) (sources : List (Option Json)) : Table × Nat :=
  sources.foldl (fun acc src =>
    let r := load_source acc.1 src
    (r.1, acc.2 + r.2.2)) (t, 0)

/-- The feedback label text (`feedback_label` / `st.session_state.feedback`),
reduced to the three texts the quiz loop writes. -/
inductive Feedback where
  | empty : Feedback
  | correct : Feedback
  | incorrect : Feedback
deriving DecidableEq

/-- The mutable application state driving one quiz: the category table, the
globals `current_category` and `current_question_index`, the feedback label,
and whether the quiz screen is active (`quiz_container` shown /
`quiz_started`).  A session in progress has `inQuiz = true`; completion
returns to the category screen (`start_app()` / `quiz_started = False`). -/
structure AppState where
  categories : Table
  current_category : Option String
  current_question_index : Nat
  feedback : Feedback
  inQuiz : Bool

/-- Observable outcome of one answer submission. -/
inductive Outcome where
  | correct : Outcome
  | incorrect : Outcome
  | completed : Outcome
deriving DecidableEq

/-- `start_quiz(category)` (flash_cards_main.py lines 178-202).  The screen
switch and the writes to `current_category` and `current_question_index`
happen before the table lookup and the read of `questions[0]`, so when either
read raises, the state mutations already made are kept (the exception
propagates out of the handler). -/
def start_quiz (st : AppState) (category : String) : AppState × Option PyError :=
  let st1 : AppState :=
    { st with inQuiz := true, current_category := some category, current_question_index := 0 }
  match st.categories category with
  | none => (st1, some PyError.keyError)
  | some (Json.obj kvs) =>
    match (kvs.map Prod.fst)[0]? with
    | none => (st1, some PyError.indexError)
    | some _ => ({ st1 with feedback := Feedback.empty }, none)
  | some _ => (st1, some PyError.attributeError)

/-- The read of the current question text
(`questions[current_question_index]`, flash_cards_main.py lines 154-155,
streamlit_app.py lines 234-235): succeeds only when the current category is
set, maps to a JSON object, and the cursor is in range. -/
def current_question (st : AppState) : Option String :=
  match st.current_category with
  | none => none
  | some cat =>
    match st.categories cat with
    | some (Json.obj kvs) => (kvs.map Prod.fst)[st.current_question_index]?
    | _ => none

/-- `submit_answer()` (flash_cards_main.py lines 146-176, streamlit_app.py
lines 82-106).  The submitted text is stripped then lower-cased; the stored
expected answer is only lower-cased.  On a match the cursor advances and the
quiz completes when it reaches the question count; on a mismatch only the
feedback label changes. -/
def submit_answer (st : AppState) (entry : String) : Except PyError (AppState × Outcome) :=
  let user_answer := pyLower (pyStrip entry)
  match st.current_category with
  | none => Except.error PyError.keyError
  | some cat =>
    match st.categories cat with
    | none => Except.error PyError.keyError
    | some (Json.obj kvs) =>
      let questions := kvs.map Prod.fst
      match questions[st.current_question_index]? with
      | none => Except.error PyError.indexError
      | some q =>
        match dictGet kvs q with
        | none => Except.error PyError.keyError
        | some (Json.str a) =>
          let correct_answer := pyLower a
          if user_answer = correct_answer then
            if st.current_question_index + 1 ≥ questions.length then
              Except.ok ({ st with current_question_index := st.current_question_index + 1,
                                   inQuiz := false }, Outcome.completed)
            else
              Except.ok ({ st with current_question_index := st.current_question_index + 1,
                                   feedback := Feedback.correct }, Outcome.correct)
          else
            Except.ok ({ st with feedback := Feedback.incorrect }, Outcome.incorrect)
        | some _ => Except.error PyError.attributeError
    | some _ => Except.error PyError.attributeError

/-- Submitting a list of answers in order, stopping at the first exception. -/
def submit_run (st : AppState) (entries : List String) :
    Except PyError (AppState × List Outcome) :=
  match entries with
  | [] => Except.ok (st, [])
  | e :: rest =>
    match submit_answer st e with
    | Except.error err => Except.error err
    | Except.ok (st1, o) =>
      match submit_run st1 rest with
      | Except.error err => Except.error err
      | Except.ok (st2, os) => Except.ok (st2, o :: os)

/-- The string payload of a JSON string value (used to read the stored
expected answers of a well-formed pack). -/
def answerText : Json → String
  | Json.str a => a
  | _ => ""

/-- The stored expected answers of a question set, in presentation order. -/
def answersOf (kvs : List (String × Json)) : List String :=
  kvs.map (fun kv => answerText kv.2)

/-- An outcome that the quiz loop treats as a correct submission. -/
def isCorrectOutcome : Outcome → Bool
  | Outcome.incorrect => false
  | _ => true

/-- A decoded source whose top level is not a JSON object (or whose decoding
failed): `none` models a `json.load` exception, a non-object value makes the
subsequent `.items()` call raise. -/
def badTopLevel : Option Json → Bool
  | none => true
  | some (Json.obj _) => false
  | some _ => true

/-- A stored answer value that is a string with no leading or trailing
whitespace. -/
def isTrimmedStr : Json → Bool
  | Json.str a => pyStrip a == a
  | _ => false

/-- Every answer value of the question set is a whitespace-trimmed string. -/
def wellFormedAnswers (kvs : List (String × Json)) : Bool :=
  kvs.all (fun p => isTrimmedStr p.2)

/- ## Dictionary and merge lemmas -/

theorem dictGet_append (l1 l2 : List (String × Json)) (k : String) :
    dictGet (l1 ++ l2) k =
      match dictGet l1 k with
      | some v => some v
      | none => dictGet l2 k := by
  induction l1 with
  | nil => simp [dictGet]
  | cons hd tl ih =>
    obtain ⟨a, v⟩ := hd
    by_cases h : k = a <;> simp [dictGet, h, ih]

theorem mergePack_cons (t : Table) (a : String) (v : Json)
    (tl : List (String × Json)) :
    mergePack t ((a, v) :: tl) = mergePack (dictSet t a v) tl := rfl

theorem mergePack_apply (kvs : List (String × Json)) (t : Table) (k : String) :
    mergePack t kvs k =
      match lookupLast kvs k with
      | some v => some v
      | none => t k := by
  induction kvs generalizing t with
  | nil => simp [mergePack, lookupLast, dictGet]
  | cons hd tl ih =>
    obtain ⟨a, v⟩ := hd
    rw [mergePack_cons, ih]
    unfold lookupLast
    rw [List.reverse_cons, dictGet_append]
    cases h : dictGet tl.reverse k with
    | some w => rfl
    | none =>
      by_cases hk : k = a <;> simp [dictGet, dictSet, hk]

theorem mergePack_idem (t : Table) (kvs : List (String × Json)) :
    mergePack (mergePack t kvs) kvs = mergePack t kvs := by
  funext k
  rw [mergePack_apply]
  cases h : lookupLast kvs k with
  | some v => rw [mergePack_apply, h]
  | none => rfl

/- ## Claims about pack loading -/

/-- C4: loading pack P1 and then pack P2 into the same category table leaves
a category named in P2 bound to exactly P2's question set for it (whole-set
overwrite, last-loaded-wins; no union or per-question merge). -/
theorem C4_overwrite_on_reload (t : Table) (p1 p2 : List (String × Json))
    (name : String) (qs : Json) (h : lookupLast p2 name = some qs) :
    (load_source ((load_source t (some (Json.obj p1))).1)
        (some (Json.obj p2))).1 name = some qs := by
  show mergePack (mergePack t p1) p2 name = some qs
  rw [mergePack_apply, h]

/-- Witness for C4: two packs binding category "math" to disjoint question
sets; after both loads, "math" holds exactly the second pack's set. -/
theorem C4_overwrite_on_reload_witness :
    lookupLast [("math", Json.obj [("2+2?", Json.str "4")])] "math"
        = some (Json.obj [("2+2?", Json.str "4")]) ∧
    (load_source ((load_source emptyTable
          (some (Json.obj [("math", Json.obj [("1+1?", Json.str "2")])]))).1)
        (some (Json.obj [("math", Json.obj [("2+2?", Json.str "4")])]))).1 "math"
      = some (Json.obj [("2+2?", Json.str "4")]) :=
  ⟨rfl, C4_overwrite_on_reload emptyTable
    [("math", Json.obj [("1+1?", Json.str "2")])]
    [("math", Json.obj [("2+2?", Json.str "4")])]
    "math" (Json.obj [("2+2?", Json.str "4")]) rfl⟩

/-- C5: a source that fails to decode or whose top level is not an object is
reported as a per-source error, leaves the table completely unchanged, and
does not stop the remaining sources from being loaded. -/
theorem C5_bad_source_all_or_nothing (t : Table) (d : Option Json)
    (rest : List (Option Json)) (h : badTopLevel d = true) :
    (∃ e, load_source t d = (t, some e, 0)) ∧
    auto_load_packs t (d :: rest) = auto_load_packs t rest := by
  have hload : ∃ e, load_source t d = (t, some e, 0) := by
    cases d with
    | none => exact ⟨PyError.jsonDecodeError, rfl⟩
    | some j =>
      cases j with
      | obj kvs => simp [badTopLevel] at h
      | null => exact ⟨PyError.attributeError, rfl⟩
      | bool b => exact ⟨PyError.attributeError, rfl⟩
      | num n => exact ⟨PyError.attributeError, rfl⟩
      | str s => exact ⟨PyError.attributeError, rfl⟩
      | arr xs => exact ⟨PyError.attributeError, rfl⟩
  refine ⟨hload, ?_⟩
  obtain ⟨e, he⟩ := hload
  show List.foldl _ _ (d :: rest) = _
  rw [List.foldl_cons]
  simp only [he]
  rfl

/-- Witness for C5: a top-level JSON array source. -/
theorem C5_bad_source_all_or_nothing_witness :
    badTopLevel (some (Json.arr [])) = true ∧
    ((∃ e, load_source emptyTable (some (Json.arr [])) = (emptyTable, some e, 0)) ∧
      auto_load_packs emptyTable
          (some (Json.arr []) :: [some (Json.obj [("math", Json.obj [])])])
        = auto_load_packs emptyTable [some (Json.obj [("math", Json.obj [])])]) :=
  ⟨rfl, C5_bad_source_all_or_nothing emptyTable (some (Json.arr []))
    [some (Json.obj [("math", Json.obj [])])] rfl⟩

/-- C6 counterexample: a top-level object whose category value is a string
(not an object) loads with no error at all, and the non-object value is
stored in the table; the claim that such a source fails with a parse error
at ingestion is false. -/
theorem C6_counterexample :
    (load_source emptyTable (some (Json.obj [("math", Json.str "oops")]))).2.1
        = none ∧
    (load_source emptyTable (some (Json.obj [("math", Json.str "oops")]))).1 "math"
        = some (Json.str "oops") :=
  ⟨rfl, rfl⟩

/-- C6 amended: loading performs no validation below the top level — any
top-level object is accepted with no error, and every member value, object
or not, string-valued or not, is stored in the table as-is. -/
theorem C6_no_validation_below_top_level (t : Table)
    (kvs : List (String × Json)) (name : String) (v : Json)
    (h : lookupLast kvs name = some v) :
    (load_source t (some (Json.obj kvs))).2.1 = none ∧
    (load_source t (some (Json.obj kvs))).1 name = some v := by
  refine ⟨rfl, ?_⟩
  show mergePack t kvs name = some v
  rw [mergePack_apply, h]

/-- Witness for the amended C6: a pack with a non-string answer value is
accepted and stored. -/
theorem C6_no_validation_below_top_level_witness :
    lookupLast [("math", Json.obj [("1+1?", Json.num 2)])] "math"
        = some (Json.obj [("1+1?", Json.num 2)]) ∧
    ((load_source emptyTable
          (some (Json.obj [("math", Json.obj [("1+1?", Json.num 2)])]))).2.1 = none ∧
      (load_source emptyTable
          (some (Json.obj [("math", Json.obj [("1+1?", Json.num 2)])]))).1 "math"
        = some (Json.obj [("1+1?", Json.num 2)])) :=
  ⟨rfl, C6_no_validation_below_top_level emptyTable
    [("math", Json.obj [("1+1?", Json.num 2)])] "math"
    (Json.obj [("1+1?", Json.num 2)]) rfl⟩

/-- C10: loading the same decoded source twice with no intervening loads
leaves the table exactly as after the first load, while the per-source
category count reported by the repeat load is the same non-zero count
again (a pack contributes at least one category). -/
theorem C10_reload_same_source (t : Table) (kvs : List (String × Json))
    (h : kvs ≠ []) :
    (load_source (load_source t (some (Json.obj kvs))).1 (some (Json.obj kvs))).1
        = (load_source t (some (Json.obj kvs))).1 ∧
    (load_source (load_source t (some (Json.obj kvs))).1 (some (Json.obj kvs))).2.2
        = (load_source t (some (Json.obj kvs))).2.2 ∧
    0 < (load_source (load_source t (some (Json.obj kvs))).1 (some (Json.obj kvs))).2.2 := by
  refine ⟨mergePack_idem t kvs, rfl, ?_⟩
  show 0 < kvs.length
  exact List.length_pos.mpr h

/-- Witness for C10: reloading a one-category pack. -/
theorem C10_reload_same_source_witness :
    ([("math", Json.obj [("1+1?", Json.str "2")])] : List (String × Json)) ≠ [] ∧
    ((load_source (load_source emptyTable
            (some (Json.obj [("math", Json.obj [("1+1?", Json.str "2")])]))).1
          (some (Json.obj [("math", Json.obj [("1+1?", Json.str "2")])]))).1
        = (load_source emptyTable
            (some (Json.obj [("math", Json.obj [("1+1?", Json.str "2")])]))).1 ∧
      (load_source (load_source emptyTable
            (some (Json.obj [("math", Json.obj [("1+1?", Json.str "2")])]))).1
          (some (Json.obj [("math", Json.obj [("1+1?", Json.str "2")])]))).2.2
        = (load_source emptyTable
            (some (Json.obj [("math", Json.obj [("1+1?", Json.str "2")])]))).2.2 ∧
      0 < (load_source (load_source emptyTable
            (some (Json.obj [("math", Json.obj [("1+1?", Json.str "2")])]))).1
          (some (Json.obj [("math", Json.obj [("1+1?", Json.str "2")])]))).2.2) :=
  ⟨by simp, C10_reload_same_source emptyTable
    [("math", Json.obj [("1+1?", Json.str "2")])] (by simp)⟩

/- ## Claims about starting a session -/

/-- C3 counterexample: starting an unknown category does fail, but the prior
session's current category and cursor are overwritten (to the unknown name
and 0) before the failing lookup, contradicting the claim that a failed
start leaves the prior session unchanged. -/
theorem C3_counterexample :
    (start_quiz ⟨emptyTable, some "a", 1, Feedback.correct, true⟩ "missing").2
        = some PyError.keyError ∧
    (start_quiz ⟨emptyTable, some "a", 1, Feedback.correct, true⟩
        "missing").1.current_category = some "missing" ∧
    (start_quiz ⟨emptyTable, some "a", 1, Feedback.correct, true⟩
        "missing").1.current_question_index = 0 :=
  ⟨rfl, rfl, rfl⟩

/-- C3 amended: starting a name absent from the table fails with a KeyError
and leaves the category table and the feedback label untouched, but only
after the current category has been set to the unknown name, the cursor
reset to 0, and the quiz screen activated. -/
theorem C3_unknown_category (st : AppState) (name : String)
    (h : st.categories name = none) :
    start_quiz st name =
      ({ st with
          inQuiz := true
          current_category := some name
          current_question_index := 0 }, some PyError.keyError) := by
  simp [start_quiz, h]

/-- Witness for the amended C3: a failed start over the empty table from a
prior in-progress session. -/
theorem C3_unknown_category_witness :
    (⟨emptyTable, some "a", 1, Feedback.correct, true⟩ : AppState).categories
        "missing" = none ∧
    start_quiz ⟨emptyTable, some "a", 1, Feedback.correct, true⟩ "missing"
      = (⟨emptyTable, some "missing", 0, Feedback.correct, true⟩, some PyError.keyError) :=
  ⟨rfl, C3_unknown_category ⟨emptyTable, some "a", 1, Feedback.correct, true⟩
    "missing" rfl⟩

/-- C2 counterexample: starting a category bound to an empty question set
does not transition to Completed; it performs the out-of-range read of index
0 of the empty question list and fails with an IndexError. -/
theorem C2_counterexample :
    (start_quiz ⟨dictSet emptyTable "empty" (Json.obj []), none, 0,
        Feedback.empty, false⟩ "empty").2 = some PyError.indexError :=
  rfl

/-- C2 amended: starting a category bound to an empty question set fails
with an IndexError (the code reads index 0 of the empty question list
unconditionally), and reading the current question of the resulting state
never succeeds. -/
theorem C2_empty_category (st : AppState) (name : String)
    (h : st.categories name = some (Json.obj [])) :
    (start_quiz st name).2 = some PyError.indexError ∧
    current_question (start_quiz st name).1 = none := by
  constructor
  · simp [start_quiz, h]
  · simp [start_quiz, current_question, h]

/-- Witness for the amended C2: a table with one empty category. -/
theorem C2_empty_category_witness :
    (⟨dictSet emptyTable "empty" (Json.obj []), none, 0, Feedback.empty,
        false⟩ : AppState).categories "empty" = some (Json.obj []) ∧
    ((start_quiz ⟨dictSet emptyTable "empty" (Json.obj []), none, 0,
          Feedback.empty, false⟩ "empty").2 = some PyError.indexError ∧
      current_question (start_quiz ⟨dictSet emptyTable "empty" (Json.obj []),
          none, 0, Feedback.empty, false⟩ "empty").1 = none) :=
  ⟨rfl, C2_empty_category ⟨dictSet emptyTable "empty" (Json.obj []), none, 0,
    Feedback.empty, false⟩ "empty" rfl⟩

/- ## Claims about answer submission -/

/-- C1 counterexample: with stored expected answer " cat" and submission
"cat" — texts that differ only in surrounding whitespace — the outcome is
Incorrect, because the stored expected answer is never stripped; only the
submission is. -/
theorem C1_counterexample :
    Except.map (fun r => r.2)
      (submit_answer ⟨dictSet emptyTable "c" (Json.obj [("q", Json.str " cat")]),
          some "c", 0, Feedback.empty, true⟩ "cat")
      = Except.ok Outcome.incorrect :=
  rfl

/-- C1 amended: the submission is normalized by trimming then lower-casing,
but the stored expected answer is only lower-cased (never trimmed); the
outcome is judged correct exactly when the trimmed lower-cased submission
equals the lower-cased expected answer.  Case-only differences are judged
Correct, and surrounding whitespace on the submission is ignored, but
surrounding whitespace in the stored expected answer is not. -/
theorem C1_normalization_asymmetric (st : AppState) (entry : String)
    (cat q a : String) (kvs : List (String × Json))
    (hcat : st.current_category = some cat)
    (hset : st.categories cat = some (Json.obj kvs))
    (hq : (kvs.map Prod.fst)[st.current_question_index]? = some q)
    (ha : dictGet kvs q = some (Json.str a)) :
    Except.map (fun r => isCorrectOutcome r.2) (submit_answer st entry)
      = Except.ok (pyLower (pyStrip entry) == pyLower a) := by
  simp only [submit_answer, hcat, hset, hq, ha]
  by_cases h : pyLower (pyStrip entry) = pyLower a
  · have hb : (pyLower (pyStrip entry) == pyLower a) = true := beq_iff_eq.mpr h
    rw [if_pos h, hb]
    by_cases h2 : st.current_question_index + 1 ≥ (kvs.map Prod.fst).length
    · rw [if_pos h2]; rfl
    · rw [if_neg h2]; rfl
  · have hb : (pyLower (pyStrip entry) == pyLower a) = false :=
      beq_eq_false_iff_ne.mpr h
    rw [if_neg h, hb]
    rfl

/-- Witness for the amended C1: a case-and-whitespace-differing submission
against a trimmed stored answer. -/
theorem C1_normalization_asymmetric_witness :
    (⟨dictSet emptyTable "c" (Json.obj [("q", Json.str "Cat")]), some "c", 0,
        Feedback.empty, true⟩ : AppState).current_category = some "c" ∧
    (⟨dictSet emptyTable "c" (Json.obj [("q", Json.str "Cat")]), some "c", 0,
        Feedback.empty, true⟩ : AppState).categories "c"
      = some (Json.obj [("q", Json.str "Cat")]) ∧
    (([("q", Json.str "Cat")].map Prod.fst))[(0 : Nat)]? = some "q" ∧
    dictGet [("q", Json.str "Cat")] "q" = some (Json.str "Cat") ∧
    Except.map (fun r => isCorrectOutcome r.2)
        (submit_answer ⟨dictSet emptyTable "c" (Json.obj [("q", Json.str "Cat")]),
            some "c", 0, Feedback.empty, true⟩ " CAT ")
      = Except.ok (pyLower (pyStrip " CAT ") == pyLower "Cat") :=
  ⟨rfl, rfl, rfl, rfl,
    C1_normalization_asymmetric
      ⟨dictSet emptyTable "c" (Json.obj [("q", Json.str "Cat")]), some "c", 0,
        Feedback.empty, true⟩ " CAT " "c" "q" "Cat" [("q", Json.str "Cat")]
      rfl rfl rfl rfl⟩

/-- Frame property of one submission: whatever the outcome, a successful
`submit_answer` call never changes the category table or the current
category (only the cursor, feedback label and quiz flag can change). -/
theorem submit_answer_frame (st : AppState) (e : String) (st1 : AppState)
    (o : Outcome) (h : submit_answer st e = Except.ok (st1, o)) :
    st1.categories = st.categories ∧ st1.current_category = st.current_category := by
  simp only [submit_answer] at h
  repeat' split at h
  any_goals exact (Except.noConfusion h)
  all_goals
    injection h with h1
    injection h1 with h2 h3
    rw [← h2]
    exact ⟨rfl, rfl⟩

/-- C7: on a submission judged equal, the cursor advances by exactly 1; if
it then equals the question count the session transitions to Completed with
outcome Completed, otherwise it stays in progress with feedback Correct and
outcome Correct; and the cursor stays within 0 ≤ cursor ≤ question count. -/
theorem C7_correct_advances (st : AppState) (entry : String)
    (cat q a : String) (kvs : List (String × Json))
    (hcat : st.current_category = some cat)
    (hset : st.categories cat = some (Json.obj kvs))
    (hq : (kvs.map Prod.fst)[st.current_question_index]? = some q)
    (ha : dictGet kvs q = some (Json.str a))
    (hin : st.inQuiz = true)
    (heq : pyLower (pyStrip entry) = pyLower a) :
    Except.map
        (fun r => (r.1.current_question_index, r.2, r.1.inQuiz, r.1.feedback))
        (submit_answer st entry)
      = Except.ok (st.current_question_index + 1,
          if st.current_question_index + 1 = kvs.length
          then (Outcome.completed, false, st.feedback)
          else (Outcome.correct, true, Feedback.correct))
    ∧ st.current_question_index + 1 ≤ kvs.length := by
  have hlt : st.current_question_index < kvs.length := by
    have h1 := (List.getElem?_eq_some_iff.mp hq).1
    simpa using h1
  constructor
  · simp only [submit_answer, hcat, hset, hq, ha]
    rw [if_pos heq]
    by_cases h2 : st.current_question_index + 1 ≥ (kvs.map Prod.fst).length
    · have hcomp : st.current_question_index + 1 = kvs.length := by
        simp only [List.length_map] at h2
        omega
      rw [if_pos h2, if_pos hcomp]
      rfl
    · have hcomp : ¬ st.current_question_index + 1 = kvs.length := by
        simp only [List.length_map] at h2
        omega
      rw [if_neg h2, if_neg hcomp]
      simp [Except.map, hin]
  · omega

/-- C8: a submission judged not equal leaves the cursor unchanged, sets the
feedback to Incorrect and returns Incorrect (no retry limit is enforced),
and no successful submission — this one or any other, correct or not — ever
changes the category table. -/
theorem C8_incorrect_frame (st : AppState) (entry e2 : String)
    (cat q a : String) (kvs : List (String × Json)) (st2 : AppState)
    (o2 : Outcome)
    (hcat : st.current_category = some cat)
    (hset : st.categories cat = some (Json.obj kvs))
    (hq : (kvs.map Prod.fst)[st.current_question_index]? = some q)
    (ha : dictGet kvs q = some (Json.str a))
    (hne : ¬ pyLower (pyStrip entry) = pyLower a)
    (h2 : submit_answer st e2 = Except.ok (st2, o2)) :
    submit_answer st entry
        = Except.ok ({ st with feedback := Feedback.incorrect }, Outcome.incorrect)
    ∧ st2.categories = st.categories := by
  constructor
  · simp only [submit_answer, hcat, hset, hq, ha]
    rw [if_neg hne]
  · exact (submit_answer_frame st e2 st2 o2 h2).1

/-- Witness for C7: the single-question category of §8 of the spec,
answered with a whitespace-padded case-variant of the stored answer. -/
theorem C7_correct_advances_witness :
    (⟨dictSet emptyTable "math" (Json.obj [("2+2?", Json.str "4")]), some "math",
        0, Feedback.empty, true⟩ : AppState).current_category = some "math" ∧
    pyLower (pyStrip " 4 ") = pyLower "4" ∧
    (Except.map
        (fun r => (r.1.current_question_index, r.2, r.1.inQuiz, r.1.feedback))
        (submit_answer ⟨dictSet emptyTable "math"
            (Json.obj [("2+2?", Json.str "4")]), some "math", 0, Feedback.empty,
            true⟩ " 4 ")
      = Except.ok (1,
          if 0 + 1 = ([("2+2?", Json.str "4")] : List (String × Json)).length
          then (Outcome.completed, false, Feedback.empty)
          else (Outcome.correct, true, Feedback.correct))
      ∧ 0 + 1 ≤ ([("2+2?", Json.str "4")] : List (String × Json)).length) :=
  ⟨rfl, rfl,
    C7_correct_advances ⟨dictSet emptyTable "math"
        (Json.obj [("2+2?", Json.str "4")]), some "math", 0, Feedback.empty,
        true⟩ " 4 " "math" "2+2?" "4" [("2+2?", Json.str "4")]
      rfl rfl rfl rfl rfl rfl⟩

/-- Witness for C8: answering "five" to "2+2?" is Incorrect and leaves the
cursor at 0; a correct submission of the same question also leaves the table
untouched. -/
theorem C8_incorrect_frame_witness :
    ¬ pyLower (pyStrip "five") = pyLower "4" ∧
    submit_answer (⟨dictSet emptyTable "math" (Json.obj [("2+2?", Json.str "4")]),
        some "math", 0, Feedback.empty, true⟩ : AppState) "4"
      = Except.ok (⟨dictSet emptyTable "math" (Json.obj [("2+2?", Json.str "4")]),
          some "math", 1, Feedback.empty, false⟩, Outcome.completed) ∧
    (submit_answer (⟨dictSet emptyTable "math" (Json.obj [("2+2?", Json.str "4")]),
          some "math", 0, Feedback.empty, true⟩ : AppState) "five"
        = Except.ok (⟨dictSet emptyTable "math" (Json.obj [("2+2?", Json.str "4")]),
            some "math", 0, Feedback.incorrect, true⟩, Outcome.incorrect)
      ∧ (⟨dictSet emptyTable "math" (Json.obj [("2+2?", Json.str "4")]),
          some "math", 1, Feedback.empty, false⟩ : AppState).categories
        = (⟨dictSet emptyTable "math" (Json.obj [("2+2?", Json.str "4")]),
            some "math", 0, Feedback.empty, true⟩ : AppState).categories) :=
  ⟨by decide, rfl,
    C8_incorrect_frame ⟨dictSet emptyTable "math"
        (Json.obj [("2+2?", Json.str "4")]), some "math", 0, Feedback.empty,
        true⟩ "five" "4" "math" "2+2?" "4" [("2+2?", Json.str "4")]
      ⟨dictSet emptyTable "math" (Json.obj [("2+2?", Json.str "4")]),
        some "math", 1, Feedback.empty, false⟩ Outcome.completed
      rfl rfl rfl rfl
      (by decide) rfl⟩

/- ## The full round trip (C9) -/

theorem submit_run_cons_ok (st st1 st2 : AppState) (e : String)
    (rest : List String) (o : Outcome) (os : List Outcome)
    (h1 : submit_answer st e = Except.ok (st1, o))
    (h2 : submit_run st1 rest = Except.ok (st2, os)) :
    submit_run st (e :: rest) = Except.ok (st2, o :: os) := by
  simp only [submit_run, h1, h2]

theorem dictGet_append_not_mem (pre : List (String × Json)) (q : String)
    (v : Json) (post : List (String × Json)) (hq : q ∉ pre.map Prod.fst) :
    dictGet (pre ++ (q, v) :: post) q = some v := by
  induction pre with
  | nil => simp [dictGet]
  | cons hd tl ih =>
    obtain ⟨b, w⟩ := hd
    simp only [List.map_cons, List.mem_cons, not_or] at hq
    simpa [dictGet, hq.1] using ih hq.2

/-- Running the remaining stored answers from any position of the question
list advances the session to completion, one judged-correct submission per
remaining question. -/
theorem submit_run_completes (cat : String) (kvs : List (String × Json))
    (hnodup : (kvs.map Prod.fst).Nodup) (hwf : wellFormedAnswers kvs = true) :
    ∀ (tail pre : List (String × Json)) (st : AppState),
      kvs = pre ++ tail → tail ≠ [] →
      st.current_category = some cat →
      st.categories cat = some (Json.obj kvs) →
      st.current_question_index = pre.length →
      ∃ st1 os, submit_run st (answersOf tail) = Except.ok (st1, os) ∧
        st1.current_question_index = kvs.length ∧
        st1.inQuiz = false ∧
        os.length = tail.length ∧
        os.all isCorrectOutcome = true := by
  intro tail
  induction tail with
  | nil => intro pre st hk hne hcat hset hidx; exact absurd rfl hne
  | cons hd tail2 ih =>
    obtain ⟨q, v⟩ := hd
    intro pre st hk hne hcat hset hidx
    subst hk
    have hvmem : (q, v) ∈ pre ++ (q, v) :: tail2 :=
      List.mem_append_right _ (List.mem_cons_self _ _)
    have hwfv : isTrimmedStr v = true := by
      simp only [wellFormedAnswers, List.all_eq_true] at hwf
      exact hwf (q, v) hvmem
    obtain ⟨a, rfl⟩ : ∃ a, v = Json.str a := by
      cases v
      case str a => exact ⟨a, rfl⟩
      all_goals simp [isTrimmedStr] at hwfv
    have hstr : pyStrip a = a := by
      simpa [isTrimmedStr] using hwfv
    have hq : (((pre ++ (q, Json.str a) :: tail2).map Prod.fst))[st.current_question_index]?
        = some q := by
      rw [hidx, List.map_append, List.getElem?_append_right (by simp)]
      simp
    have hnotmem : q ∉ pre.map Prod.fst := by
      rw [List.map_append] at hnodup
      have hdisj := List.disjoint_of_nodup_append hnodup
      intro hmem
      exact hdisj hmem (by simp)
    have hdict : dictGet (pre ++ (q, Json.str a) :: tail2) q = some (Json.str a) :=
      dictGet_append_not_mem pre q (Json.str a) tail2 hnotmem
    cases tail2 with
    | nil =>
      refine ⟨{ st with
          current_question_index := st.current_question_index + 1
          inQuiz := false }, [Outcome.completed], ?_, ?_, rfl, rfl, rfl⟩
      · show submit_run st (answersOf [(q, Json.str a)]) = _
        simp only [answersOf, List.map_cons, List.map_nil, answerText]
        simp only [submit_run, submit_answer, hcat, hset, hq, hdict]
        rw [hstr, if_pos rfl,
          if_pos (by rw [hidx]; simp [List.length_map, List.length_append])]
      · rw [hidx]
        simp
    | cons hd2 tl2 =>
      have hsa : submit_answer st a =
          Except.ok ({ st with
            current_question_index := st.current_question_index + 1
            feedback := Feedback.correct }, Outcome.correct) := by
        simp only [submit_answer, hcat, hset, hq, hdict]
        rw [hstr, if_pos rfl,
          if_neg (by rw [hidx]; simp [List.length_map, List.length_append])]
      obtain ⟨st1, os, hrun, hidx1, hq1, hlen1, hall1⟩ :=
        ih (pre ++ [(q, Json.str a)])
          { st with
            current_question_index := st.current_question_index + 1
            feedback := Feedback.correct }
          (List.append_assoc pre [(q, Json.str a)] (hd2 :: tl2)).symm
          (List.cons_ne_nil hd2 tl2) hcat hset
          (by rw [hidx]; simp)
      refine ⟨st1, Outcome.correct :: os, ?_, hidx1, hq1, ?_, ?_⟩
      · show submit_run st (answersOf ((q, Json.str a) :: hd2 :: tl2)) = _
        have hsplit : answersOf ((q, Json.str a) :: hd2 :: tl2)
            = a :: answersOf (hd2 :: tl2) := rfl
        rw [hsplit]
        exact submit_run_cons_ok st _ st1 a (answersOf (hd2 :: tl2))
          Outcome.correct os hsa hrun
      · simpa using hlen1
      · simpa [isCorrectOutcome] using hall1

/-- C9 counterexample: a pack whose single stored answer carries trailing
whitespace ("cat ").  Answering the question with its exact stored expected
value is judged Incorrect (the stored side is never stripped), so after
totalCount submissions of exact stored values the session has not reached
Completed. -/
theorem C9_counterexample :
    Except.map (fun r => (r.1.inQuiz, r.2))
      (submit_run (start_quiz ⟨dictSet emptyTable "c"
            (Json.obj [("q", Json.str "cat ")]), none, 0, Feedback.empty, false⟩
          "c").1
        (answersOf [("q", Json.str "cat ")]))
      = Except.ok (true, [Outcome.incorrect]) :=
  rfl

/-- C9 amended: for a loaded question set whose stored answers are strings
free of leading and trailing whitespace, starting the category and answering
every question in presentation order with its exact stored expected value
reaches Completed after exactly totalCount judged-correct submissions,
whatever order the source listed the questions in. -/
theorem C9_round_trip (t : Table) (cat : String) (kvs : List (String × Json))
    (hset : t cat = some (Json.obj kvs)) (hne : kvs ≠ [])
    (hnodup : (kvs.map Prod.fst).Nodup) (hwf : wellFormedAnswers kvs = true) :
    (start_quiz ⟨t, none, 0, Feedback.empty, false⟩ cat).2 = none ∧
    Except.map
      (fun r => (r.1.current_question_index, r.1.inQuiz, r.2.length,
        r.2.all isCorrectOutcome))
      (submit_run (start_quiz ⟨t, none, 0, Feedback.empty, false⟩ cat).1
        (answersOf kvs))
      = Except.ok (kvs.length, false, kvs.length, true) := by
  obtain ⟨⟨q0, v0⟩, rest, rfl⟩ : ∃ hd rest, kvs = hd :: rest := by
    cases kvs with
    | nil => exact absurd rfl hne
    | cons hd rest => exact ⟨hd, rest, rfl⟩
  have hstart : start_quiz ⟨t, none, 0, Feedback.empty, false⟩ cat
      = (⟨t, some cat, 0, Feedback.empty, true⟩, none) := by
    simp [start_quiz, hset]
  refine ⟨by rw [hstart], ?_⟩
  obtain ⟨st1, os, hrun, hidx1, hq1, hlen1, hall1⟩ :=
    submit_run_completes cat ((q0, v0) :: rest) hnodup hwf ((q0, v0) :: rest)
      [] ⟨t, some cat, 0, Feedback.empty, true⟩ rfl (List.cons_ne_nil _ _)
      rfl hset rfl
  rw [hstart]
  show Except.map _ (submit_run ⟨t, some cat, 0, Feedback.empty, true⟩
    (answersOf ((q0, v0) :: rest))) = _
  rw [hrun]
  simp [Except.map, hidx1, hq1, hlen1, hall1]

/-- Witness for the amended C9: a two-question category with trimmed stored
answers, answered with the stored values in presentation order. -/
theorem C9_round_trip_witness :
    dictSet emptyTable "math"
        (Json.obj [("2+2?", Json.str "4"), ("3+3?", Json.str "6")]) "math"
      = some (Json.obj [("2+2?", Json.str "4"), ("3+3?", Json.str "6")]) ∧
    ([("2+2?", Json.str "4"), ("3+3?", Json.str "6")] : List (String × Json)) ≠ [] ∧
    (([("2+2?", Json.str "4"), ("3+3?", Json.str "6")] : List (String × Json)).map
        Prod.fst).Nodup ∧
    wellFormedAnswers [("2+2?", Json.str "4"), ("3+3?", Json.str "6")] = true ∧
    ((start_quiz ⟨dictSet emptyTable "math"
          (Json.obj [("2+2?", Json.str "4"), ("3+3?", Json.str "6")]), none, 0,
          Feedback.empty, false⟩ "math").2 = none ∧
      Except.map
        (fun r => (r.1.current_question_index, r.1.inQuiz, r.2.length,
          r.2.all isCorrectOutcome))
        (submit_run (start_quiz ⟨dictSet emptyTable "math"
              (Json.obj [("2+2?", Json.str "4"), ("3+3?", Json.str "6")]), none,
              0, Feedback.empty, false⟩ "math").1
          (answersOf [("2+2?", Json.str "4"), ("3+3?", Json.str "6")]))
        = Except.ok
            (([("2+2?", Json.str "4"), ("3+3?", Json.str "6")] :
              List (String × Json)).length, false,
              ([("2+2?", Json.str "4"), ("3+3?", Json.str "6")] :
                List (String × Json)).length, true)) :=
  ⟨rfl, by simp, by decide, rfl,
    C9_round_trip (dictSet emptyTable "math"
        (Json.obj [("2+2?", Json.str "4"), ("3+3?", Json.str "6")])) "math"
      [("2+2?", Json.str "4"), ("3+3?", Json.str "6")]
      rfl (by simp) (by decide) rfl⟩

end FlashCards
